import Mathlib

/-! The xv6-riscv trap subsystem with adaptive clock ticks.

A shallow embedding of `kernel/trap.c`: the per-process accounting done by
`update_proc_stats`, the interval computation of `calculate_tick_interval`,
the timer handler `clockintr`, the interrupt classifier `devintr` and the two
trap entry points `usertrap` and `kerneltrap`.

Conventions.
* Unsigned machine integers are natural numbers; every C operation on them
  that can wrap is written with an explicit `% 2^w`.  `ticks` is declared
  `uint` (32 bits) in trap.c; the locals `current_ticks`, `elapsed`,
  `total_ticks` and `interval` are declared `uint64`.  The `int` tallies of
  `calculate_tick_interval` never exceed the size of the process table and
  are plain natural numbers.
* Constants that come from headers (`param.h`, `memlayout.h`, `riscv.h`) are
  fields of `Params`; nothing is assumed about their values beyond what a
  theorem states.
* The `(float)` interpolation of `calculate_tick_interval` is carried out in
  exact rational arithmetic and then converted to `uint64`.
-/

namespace Xv6

/-! ## Data model -/

/-- Modelled from the spec: `enum procstate` is declared in proc.h, which is
not part of the sources.  The spec lists the states unused, embryo/used,
sleeping, runnable, running, zombie; the names are the constants trap.c
compares against. -/
inductive procstate where
  | UNUSED
  | USED
  | SLEEPING
  | RUNNABLE
  | RUNNING
  | ZOMBIE
  deriving DecidableEq, Repr

/-- Modelled from the spec: the wait channel of a sleeping process (proc.h,
not part of the sources), the address it is blocked on.  Only the address of
`ticks`, the one `clockintr` wakes, is told apart from the others. -/
inductive Chan where
  | ticks
  | other (addr : Nat)
  deriving DecidableEq, Repr

/-- Modelled from the spec: `struct proc` is declared in proc.h, which is not
part of the sources.  These are the fields trap.c reads or writes, plus the
channel `wakeup` looks at.  The spec gives the three counters as unsigned;
they, `last_tick` and the two ratios are taken to be 64 bits wide, the width
of the locals `elapsed` and `total_ticks` they are combined with in trap.c.
`epc` stands for `trapframe->epc`. -/
structure proc where
  state : procstate
  chan : Option Chan
  killed : Bool
  epc : Nat
  run_ticks : Nat
  sleep_ticks : Nat
  runnable_ticks : Nat
  last_tick : Nat
  cpu_usage : Nat
  io_intensity : Nat
  deriving DecidableEq, Repr

/-- Modelled from the spec: `struct cpu` is declared in proc.h, which is not
part of the sources.  The one field trap.c writes, an unsigned 64-bit value
in the metrics layout of the spec. -/
structure cpu where
  current_tick_interval : Nat
  deriving DecidableEq, Repr

/-- Header constants used by trap.c.  Their defining headers are not part of
the sources, so they are parameters of the model. -/
structure Params where
  MIN_TICK_INTERVAL : Nat
  DEFAULT_TICK_INTERVAL : Nat
  MAX_TICK_INTERVAL : Nat
  HIGH_CPU_THRESHOLD : Nat
  HIGH_IO_THRESHOLD : Nat
  SSTATUS_SPP : Nat
  SSTATUS_SPIE : Nat
  UART0_IRQ : Int
  VIRTIO0_IRQ : Int
  deriving Repr

/-- Global kernel state touched by the timer path: `ticks`,
`use_dynamic_ticks`, the table `proc[NPROC]`, the executing core's
`struct cpu` (what `mycpu()` returns), the `stimecmp` register and the
hardware clock read by `r_time()`. -/
structure Kernel where
  ticks : Nat
  use_dynamic_ticks : Int
  proc : List proc
  cpu : cpu
  stimecmp : Nat
  time : Nat
  deriving DecidableEq, Repr

/-- The capacity of the process table: `proc[NPROC]` has `NPROC` entries. -/
def NPROC (k : Kernel) : Nat := k.proc.length

/-! ## Machine arithmetic -/

/-- Sum of two `uint64` values. -/
def add64 (a b : Nat) : Nat := (a + b) % 2 ^ 64

/-- Difference of two `uint64` values (wraps below zero). -/
def sub64 (a b : Nat) : Nat := (a % 2 ^ 64 + (2 ^ 64 - b % 2 ^ 64)) % 2 ^ 64

/-- Product of two `uint64` values. -/
def mul64 (a b : Nat) : Nat := (a * b) % 2 ^ 64

/-- Conversion of a fractional value to `uint64`: the fractional part is
discarded.  Values that do not fit are undefined in C; the RISC-V conversion
instruction saturates (below zero gives 0, too large gives 2^64 - 1), and
that is what is modelled.  No theorem below relies on the out-of-range case
unless it says so. -/
def toUint64 (q : ℚ) : Nat := min (Int.toNat ⌊q⌋) (2 ^ 64 - 1)

/-! ## Process Stats Tracker: `update_proc_stats` (trap.c 173-218) -/

/-- The body of the loop of `update_proc_stats` for one record (trap.c
185-215), with `current_ticks` the value read from `ticks`. -/
def update_proc_stats_body (current_ticks : Nat) (p : proc) : proc :=
  if p.state ≠ procstate.UNUSED then
    let elapsed := sub64 current_ticks p.last_tick
    let p1 : proc :=
      if p.state = procstate.RUNNING then
        { p with run_ticks := add64 p.run_ticks elapsed }
      else if p.state = procstate.SLEEPING then
        { p with sleep_ticks := add64 p.sleep_ticks elapsed }
      else if p.state = procstate.RUNNABLE then
        { p with runnable_ticks := add64 p.runnable_ticks elapsed }
      else p
    let p2 : proc := { p1 with last_tick := current_ticks }
    if current_ticks % 10 = 0 then
      let total_ticks := add64 (add64 p2.run_ticks p2.sleep_ticks) p2.runnable_ticks
      if total_ticks > 0 then
        { p2 with
          cpu_usage := mul64 p2.run_ticks 10000 / total_ticks
          io_intensity := mul64 p2.sleep_ticks 10000 / total_ticks }
      else p2
    else p2
  else p

/-- The function `update_proc_stats`: reads `ticks` once and runs the loop
body over every entry of the table. -/
def update_proc_stats (k : Kernel) : Kernel :=
  let current_ticks := k.ticks
  { k with proc := k.proc.map (update_proc_stats_body current_ticks) }

/-! ## Adaptive Tick Scheduler: `calculate_tick_interval`, `clockintr` -/

/-- Loop condition counted in `total_procs` (trap.c 234). -/
def counts_total (p : proc) : Bool := p.state != procstate.UNUSED

/-- Loop condition counted in `active_procs` (trap.c 234, 237). -/
def counts_active (p : proc) : Bool :=
  p.state != procstate.UNUSED &&
    (p.state == procstate.RUNNING || p.state == procstate.RUNNABLE)

/-- Loop condition counted in `high_cpu_procs` (trap.c 234, 241). -/
def counts_high_cpu (P : Params) (p : proc) : Bool :=
  p.state != procstate.UNUSED && decide (p.cpu_usage > P.HIGH_CPU_THRESHOLD)

/-- Loop condition counted in `high_io_procs` (trap.c 234, 245). -/
def counts_high_io (P : Params) (p : proc) : Bool :=
  p.state != procstate.UNUSED && decide (p.io_intensity > P.HIGH_IO_THRESHOLD)

/-- Value of `total_procs` after the counting loop. -/
def total_procs (k : Kernel) : Nat := k.proc.countP counts_total

/-- Value of `active_procs` after the counting loop. -/
def active_procs (k : Kernel) : Nat := k.proc.countP counts_active

/-- Value of `high_cpu_procs` after the counting loop. -/
def high_cpu_procs (P : Params) (k : Kernel) : Nat := k.proc.countP (counts_high_cpu P)

/-- Value of `high_io_procs` after the counting loop. -/
def high_io_procs (P : Params) (k : Kernel) : Nat := k.proc.countP (counts_high_io P)

/-- The value of the local `interval` at the end of
`calculate_tick_interval` (trap.c 256-275). -/
def tick_interval (P : Params) (k : Kernel) : Nat :=
  let active := active_procs k
  let high_cpu := high_cpu_procs P k
  let high_io := high_io_procs P k
  if high_cpu > active / 2 ∧ active > 1 then
    toUint64 ((P.MIN_TICK_INTERVAL : ℚ) +
      ((P.DEFAULT_TICK_INTERVAL : ℚ) - (P.MIN_TICK_INTERVAL : ℚ)) *
        (1 - (high_cpu : ℚ) / (active : ℚ)))
  else if high_io > active / 2 ∧ active > 1 then
    toUint64 ((P.DEFAULT_TICK_INTERVAL : ℚ) +
      ((P.MAX_TICK_INTERVAL : ℚ) - (P.DEFAULT_TICK_INTERVAL : ℚ)) *
        ((high_io : ℚ) / (active : ℚ)))
  else if active ≤ 1 then
    P.MAX_TICK_INTERVAL
  else
    let interval := toUint64 ((P.DEFAULT_TICK_INTERVAL : ℚ) -
      ((P.DEFAULT_TICK_INTERVAL : ℚ) - (P.MIN_TICK_INTERVAL : ℚ)) *
        ((active : ℚ) / (NPROC k : ℚ)))
    if interval < P.MIN_TICK_INTERVAL then P.MIN_TICK_INTERVAL else interval

/-- The function `calculate_tick_interval`: returns the interval and stores
it in the executing core's `current_tick_interval` (trap.c 278-280). -/
def calculate_tick_interval (P : Params) (k : Kernel) : Nat × Kernel :=
  let interval := tick_interval P k
  (interval, { k with cpu := { k.cpu with current_tick_interval := interval } })

/-- Modelled from the spec: `wakeup` is defined in proc.c, which is not part
of the sources.  "Broadcast-wake every waiter blocked on the tick counter's
address": every record sleeping on the channel becomes runnable; nothing
else changes. -/
def wakeup_body (c : Chan) (p : proc) : proc :=
  if p.state = procstate.SLEEPING ∧ p.chan = some c then
    { p with state := procstate.RUNNABLE }
  else p

/-- Modelled from the spec: `wakeup` applied to the whole table (see
`wakeup_body`). -/
def wakeup (c : Chan) (k : Kernel) : Kernel :=
  { k with proc := k.proc.map (wakeup_body c) }

/-- The function `clockintr` (trap.c 283-303) together with the value of its
local `interval`, the delta used to program the next deadline. -/
def clockintr_run (P : Params) (k : Kernel) : Nat × Kernel :=
  let k1 : Kernel := { k with ticks := (k.ticks + 1) % 2 ^ 32 }
  let k2 := update_proc_stats k1
  let k3 := wakeup Chan.ticks k2
  let r : Nat × Kernel :=
    if k3.use_dynamic_ticks ≠ 0 then calculate_tick_interval P k3
    else (P.DEFAULT_TICK_INTERVAL, k3)
  (r.1, { r.2 with stimecmp := add64 r.2.time r.1 })

/-- State after `clockintr`. -/
def clockintr (P : Params) (k : Kernel) : Kernel := (clockintr_run P k).2

/-- The interval `clockintr` passes to `w_stimecmp(r_time() + interval)`. -/
def clockintr_interval (P : Params) (k : Kernel) : Nat := (clockintr_run P k).1

/-! ## Interrupt Classifier and trap entry points -/

/-- Calls made by trap.c into code outside it whose effect on the state of
this model is not represented: they are recorded in the order they happen.
A `printf` is recorded with the beginning of its format string. -/
inductive Event where
  | uartintr
  | virtio_disk_intr
  | plic_complete (irq : Int)
  | printf (msg : String)
  | intr_on
  | intr_off
  | userret
  deriving DecidableEq, Repr

/-- Where `stvec` points. -/
inductive TrapVector where
  | kernelvec
  | uservec
  deriving DecidableEq, Repr

/-- A hart inside a trap handler: the kernel state, the control registers
trap.c reads and writes, the id `plic_claim()` would return, the index of
`myproc()` in the process table (`none` for a null pointer) and the record
of outside calls. -/
structure Machine where
  kernel : Kernel
  sstatus : Nat
  scause : Nat
  sepc : Nat
  stval : Nat
  stvec : TrapVector
  intr_get : Bool
  plic_claim : Int
  myproc : Option Nat
  log : List Event
  deriving DecidableEq, Repr

/-- Code outside trap.c that runs in the middle of a trap handler and may
change the state in ways trap.c then observes: the system-call dispatcher
and the scheduler switch of `yield`. -/
structure Outside where
  syscall : Machine → Machine
  yield : Machine → Machine

/-- How a trap handler ends: the kernel halts in `panic`, the current
process leaves through `exit`, or the handler runs to its end. -/
inductive Outcome where
  | panic (msg : String)
  | exit (status : Int) (m : Machine)
  | ret (m : Machine)
  deriving DecidableEq, Repr

/-- Appends an outside call to the record. -/
def Machine.emit (m : Machine) (e : Event) : Machine := { m with log := m.log ++ [e] }

/-- Applies `f` to the record `myproc()` points at. -/
def Machine.with_myproc (m : Machine) (f : proc → proc) : Machine :=
  match m.myproc with
  | some i => { m with kernel := { m.kernel with proc := m.kernel.proc.modify f i } }
  | none => m

/-- The record `myproc()` points at. -/
def Machine.curproc (m : Machine) : Option proc :=
  match m.myproc with
  | some i => m.kernel.proc[i]?
  | none => none

/-- Modelled from the spec: `killed` is defined in proc.c, which is not part
of the sources; it reads the termination flag of the process, here always
`myproc()` (false when there is no current process). -/
def killed (m : Machine) : Bool :=
  match m.curproc with
  | some p => p.killed
  | none => false

/-- Modelled from the spec: `setkilled` is defined in proc.c, which is not
part of the sources; it flags the given process, here always `myproc()`, for
termination. -/
def setkilled (m : Machine) : Machine := m.with_myproc (fun p => { p with killed := true })

/-- The function `devintr` (trap.c 326-359): the returned code and the state
after the dispatch. -/
def devintr (P : Params) (m : Machine) : Int × Machine :=
  let scause := m.scause
  if scause = 0x8000000000000009 then
    let irq := m.plic_claim
    let m1 :=
      if irq = P.UART0_IRQ then m.emit Event.uartintr
      else if irq = P.VIRTIO0_IRQ then m.emit Event.virtio_disk_intr
      else if irq ≠ 0 then m.emit (Event.printf "unexpected interrupt irq")
      else m
    let m2 := if irq ≠ 0 then m1.emit (Event.plic_complete irq) else m1
    (1, m2)
  else if scause = 0x8000000000000005 then
    (2, { m with kernel := clockintr P m.kernel })
  else
    (0, m)

/-- The function `usertrapret` (trap.c 97-138).  The four stores into the
trapframe's `kernel_*` fields are not represented (nothing in trap.c reads
them back); the final jump to the trampoline is recorded as `userret`. -/
def usertrapret (P : Params) (m : Machine) : Machine :=
  let m1 := { m.emit Event.intr_off with intr_get := false }
  let m2 := { m1 with stvec := TrapVector.uservec }
  let x := (m2.sstatus &&& (2 ^ 64 - 1 - P.SSTATUS_SPP)) ||| P.SSTATUS_SPIE
  let m3 := { m2 with sstatus := x }
  let m4 := match m3.curproc with
    | some p => { m3 with sepc := p.epc }
    | none => m3
  m4.emit Event.userret

/-- The tail of `usertrap` (trap.c 84-91), shared by its three branches. -/
def usertrap_finish (P : Params) (X : Outside) (which_dev : Int)
    (m : Machine) : Outcome :=
  if killed m then Outcome.exit (-1) m
  else
    let m1 := if which_dev = 2 then X.yield m else m
    Outcome.ret (usertrapret P m1)

/-- The function `usertrap` (trap.c 44-92). -/
def usertrap (P : Params) (X : Outside) (m : Machine) : Outcome :=
  if m.sstatus &&& P.SSTATUS_SPP ≠ 0 then
    Outcome.panic "usertrap: not from user mode"
  else
    let m1 := { m with stvec := TrapVector.kernelvec }
    let m2 := m1.with_myproc (fun p => { p with epc := m1.sepc })
    if m2.scause = 8 then
      if killed m2 then Outcome.exit (-1) m2
      else
        let m3 := m2.with_myproc (fun p => { p with epc := add64 p.epc 4 })
        let m4 := { m3.emit Event.intr_on with intr_get := true }
        usertrap_finish P X 0 (X.syscall m4)
    else
      let r := devintr P m2
      if r.1 ≠ 0 then
        usertrap_finish P X r.1 r.2
      else
        let m3 := (r.2.emit (Event.printf "usertrap(): unexpected scause")).emit
          (Event.printf "sepc stval")
        usertrap_finish P X r.1 (setkilled m3)

/-- The function `kerneltrap` (trap.c 142-169).  The `printf` before the last
`panic` is not recorded: a panic keeps no state. -/
def kerneltrap (P : Params) (X : Outside) (m : Machine) : Outcome :=
  let sepc := m.sepc
  let sstatus := m.sstatus
  if sstatus &&& P.SSTATUS_SPP = 0 then
    Outcome.panic "kerneltrap: not from supervisor mode"
  else if m.intr_get then
    Outcome.panic "kerneltrap: interrupts enabled"
  else
    let r := devintr P m
    if r.1 = 0 then
      Outcome.panic "kerneltrap"
    else
      let m1 := if r.1 = 2 ∧ r.2.myproc ≠ none then X.yield r.2 else r.2
      Outcome.ret { m1 with sepc := sepc, sstatus := sstatus }

/-! ## Lock operations of the timer path -/

/-- The spinlocks taken on the timer path: `tickslock` and the `lock` field
of the table entry with the given index. -/
inductive Lock where
  | tickslock
  | plock (i : Nat)
  deriving DecidableEq, Repr

/-- A call of `acquire` or `release`. -/
inductive LockOp where
  | acquire (l : Lock)
  | release (l : Lock)
  deriving DecidableEq, Repr

/-- The `acquire`/`release` calls of `update_proc_stats`, in program order
(trap.c 179, 181, and 184, 216 once per table entry). -/
def update_proc_stats_locks (nproc : Nat) : List LockOp :=
  [LockOp.acquire Lock.tickslock, LockOp.release Lock.tickslock] ++
    (List.range nproc).flatMap (fun i =>
      [LockOp.acquire (Lock.plock i), LockOp.release (Lock.plock i)])

/-- The `acquire`/`release` calls of `clockintr`, in program order (trap.c
286, the call at 288, 290).  The calls made inside `wakeup` (proc.c, not part
of the sources) are the parameter `wakeup_locks`. -/
def clockintr_locks (nproc : Nat) (wakeup_locks : List LockOp) : List LockOp :=
  [LockOp.acquire Lock.tickslock] ++ update_proc_stats_locks nproc ++ wakeup_locks ++
    [LockOp.release Lock.tickslock]

/-- Runs through lock operations with `held` process locks currently held
and reports whether no process lock is ever acquired while another one is
held. -/
def one_plock_at_a_time : Nat → List LockOp → Bool
  | _, [] => true
  | held, LockOp.acquire (Lock.plock _) :: ops => held == 0 && one_plock_at_a_time 1 ops
  | held, LockOp.release (Lock.plock _) :: ops => one_plock_at_a_time (held - 1) ops
  | held, _ :: ops => one_plock_at_a_time held ops

/-! ## Runs of consecutive timer interrupts -/

/-- What the rest of the kernel may do between two timer interrupts as far
as the accounting of the record at index `i` is concerned: it does not touch
`ticks`, keeps the record in the table and leaves its three counters and its
`last_tick` alone.  Its state, channel and termination flag may change
(scheduling, sleep, wakeup, kill). -/
def keeps_accounting (i : Nat) (f : Kernel → Kernel) : Prop :=
  ∀ k, (f k).ticks = k.ticks ∧
    ∀ p, k.proc[i]? = some p → ∃ q, (f k).proc[i]? = some q ∧
      q.run_ticks = p.run_ticks ∧ q.sleep_ticks = p.sleep_ticks ∧
      q.runnable_ticks = p.runnable_ticks ∧ q.last_tick = p.last_tick

/-- One `clockintr` per element of the list, each preceded by that step of
the rest of the kernel. -/
def timer_interrupts (P : Params) : List (Kernel → Kernel) → Kernel → Kernel
  | [], k => k
  | f :: fs, k => timer_interrupts P fs (clockintr P (f k))

/-- The state the record at index `i` is in when each of the interrupts of
`timer_interrupts` arrives (`none` if the table has no such record). -/
def states_at_interrupts (P : Params) (i : Nat) :
    List (Kernel → Kernel) → Kernel → List (Option procstate)
  | [], _ => []
  | f :: fs, k =>
    ((f k).proc[i]?).map proc.state :: states_at_interrupts P i fs (clockintr P (f k))

/-- A scheduling step: the record at index `i` gets state `s`. -/
def set_state (i : Nat) (s : procstate) (k : Kernel) : Kernel :=
  { k with proc := k.proc.modify (fun p => { p with state := s }) i }

/-! ## Concrete inputs used by witnesses and counterexamples -/

/-- A record with the given state and accounting fields, not waiting on any
channel and not flagged for termination. -/
def mk_proc (s : procstate) (run sleep runnable last cpu io : Nat) : proc :=
  { state := s, chan := none, killed := false, epc := 0, run_ticks := run,
    sleep_ticks := sleep, runnable_ticks := runnable, last_tick := last,
    cpu_usage := cpu, io_intensity := io }

/-- Sample header constants: the default interval 1000000 is the fixed
interval user/runtime.c prints; the other values are examples. -/
def sample_params : Params :=
  { MIN_TICK_INTERVAL := 100000, DEFAULT_TICK_INTERVAL := 1000000,
    MAX_TICK_INTERVAL := 2000000, HIGH_CPU_THRESHOLD := 7000,
    HIGH_IO_THRESHOLD := 7000, SSTATUS_SPP := 256, SSTATUS_SPIE := 32,
    UART0_IRQ := 10, VIRTIO0_IRQ := 1 }

/-- A kernel in dynamic mode with the given tick count and process table. -/
def mk_kernel (ticks : Nat) (procs : List proc) : Kernel :=
  { ticks := ticks, use_dynamic_ticks := 1, proc := procs,
    cpu := { current_tick_interval := 0 }, stimecmp := 0, time := 0 }

/-- Tick 13 with a running, a sleeping and an unused record. -/
def kernel_mid_window : Kernel :=
  mk_kernel 13 [mk_proc procstate.RUNNING 4 2 1 12 5000 2500,
    mk_proc procstate.SLEEPING 1 8 0 12 1000 8000,
    mk_proc procstate.UNUSED 0 0 0 0 0 0]

/-- Tick 10 with a zombie that ran 5 and slept 5 ticks since its ratios were
last computed, and an unused record. -/
def kernel_zombie : Kernel :=
  mk_kernel 10 [mk_proc procstate.ZOMBIE 5 5 0 7 0 0, mk_proc procstate.UNUSED 0 0 0 0 0 0]

/-- Fixed mode on a core whose current_tick_interval still holds 2000000,
the interval stored by an earlier interrupt in dynamic mode. -/
def kernel_fixed_mode : Kernel :=
  { mk_kernel 41 [mk_proc procstate.RUNNING 1 0 0 41 0 0, mk_proc procstate.RUNNABLE 0 0 1 41 0 0]
    with
    use_dynamic_ticks := 0
    cpu := { current_tick_interval := 2000000 } }

/-- One running record next to sleeping, zombie and embryo records that are
above both thresholds. -/
def kernel_one_active : Kernel :=
  mk_kernel 7 [mk_proc procstate.RUNNING 9 0 0 7 10000 0,
    mk_proc procstate.SLEEPING 5 5 0 7 9000 9000,
    mk_proc procstate.ZOMBIE 5 5 0 7 8000 8000,
    mk_proc procstate.USED 0 9 0 7 0 10000,
    mk_proc procstate.UNUSED 0 0 0 0 0 0]

/-- Two runnable records that are not I/O-bound and four sleeping records
whose io_intensity is 10000 (they slept all the time). -/
def kernel_io_heavy : Kernel :=
  mk_kernel 30 [mk_proc procstate.RUNNABLE 0 0 30 30 0 0,
    mk_proc procstate.RUNNABLE 0 0 30 30 0 0,
    mk_proc procstate.SLEEPING 0 30 0 30 0 10000,
    mk_proc procstate.SLEEPING 0 30 0 30 0 10000,
    mk_proc procstate.SLEEPING 0 30 0 30 0 10000,
    mk_proc procstate.SLEEPING 0 30 0 30 0 10000,
    mk_proc procstate.UNUSED 0 0 0 0 0 0,
    mk_proc procstate.UNUSED 0 0 0 0 0 0]

/-- Two runnable and two sleeping records, all four with cpu_usage 10000
(they ran all the time they were accounted). -/
def kernel_cpu_heavy : Kernel :=
  mk_kernel 30 [mk_proc procstate.RUNNABLE 30 0 0 30 10000 0,
    mk_proc procstate.RUNNABLE 30 0 0 30 10000 0,
    mk_proc procstate.SLEEPING 30 0 0 30 10000 0,
    mk_proc procstate.SLEEPING 30 0 0 30 10000 0,
    mk_proc procstate.UNUSED 0 0 0 0 0 0]

/-- Four active records, three of them above the CPU threshold, and nothing
else in the table. -/
def kernel_four_active : Kernel :=
  mk_kernel 30 [mk_proc procstate.RUNNING 30 0 0 30 10000 0,
    mk_proc procstate.RUNNABLE 24 0 6 30 8000 0,
    mk_proc procstate.RUNNABLE 24 0 6 30 8000 0,
    mk_proc procstate.RUNNABLE 3 24 3 30 1000 8000,
    mk_proc procstate.UNUSED 0 0 0 0 0 0]

/-- The tick counter at its largest 32-bit value, with a running record
whose last_tick is that value. -/
def kernel_tick_wrap : Kernel :=
  mk_kernel 4294967295 [mk_proc procstate.RUNNING 0 0 0 4294967295 0 0]

/-- Tick 12 with a running record accounted up to tick 12. -/
def kernel_window_start : Kernel :=
  mk_kernel 12 [mk_proc procstate.RUNNING 4 2 1 12 5000 2500]

/-- Three steps of the rest of the kernel: nothing, then the record goes to
sleep, then nothing. -/
def window_steps : List (Kernel → Kernel) :=
  [id, set_state 0 procstate.SLEEPING, id]

/-- Outside code that does nothing to the modelled state. -/
def outside_idle : Outside := { syscall := id, yield := id }

/-- A trap with cause 13 (load page fault) taken from user mode by the
process at index 1; the previous-privilege bit of sstatus is clear. -/
def machine_user_fault : Machine :=
  { kernel := mk_kernel 13 [mk_proc procstate.SLEEPING 1 8 0 12 1000 8000,
      mk_proc procstate.RUNNING 4 2 1 12 5000 2500,
      mk_proc procstate.RUNNABLE 2 2 3 12 2800 2800],
    sstatus := 32, scause := 13, sepc := 4096, stval := 0,
    stvec := TrapVector.uservec, intr_get := false, plic_claim := 0,
    myproc := some 1, log := [] }

/-- The same trap taken in supervisor mode with interrupts off. -/
def machine_kernel_fault : Machine :=
  { machine_user_fault with sstatus := 256, stvec := TrapVector.kernelvec }

/-! ## Theorems -/

/-! ### Process Stats Tracker: one call of update_proc_stats (C3, C4, C5) -/

theorem body_state (now : Nat) (p : proc) : (update_proc_stats_body now p).state = p.state := by
  unfold update_proc_stats_body
  dsimp only
  split_ifs <;> rfl

theorem body_ratios_of_not_tenth (now : Nat) (p : proc) (h : now % 10 ≠ 0) :
    (update_proc_stats_body now p).cpu_usage = p.cpu_usage ∧
    (update_proc_stats_body now p).io_intensity = p.io_intensity := by
  unfold update_proc_stats_body
  dsimp only
  rw [if_neg h]
  split_ifs <;> exact ⟨rfl, rfl⟩

theorem body_unused (now : Nat) (p : proc) (h : p.state = procstate.UNUSED) :
    update_proc_stats_body now p = p := by
  unfold update_proc_stats_body
  simp [h]

theorem update_proc_stats_getElem (k : Kernel) (i : Nat) :
    (update_proc_stats k).proc[i]? = (k.proc[i]?).map (update_proc_stats_body k.ticks) := by
  simp [update_proc_stats]

theorem body_counters_of_not_accounted (now : Nat) (p : proc)
    (h : p.state = procstate.USED ∨ p.state = procstate.ZOMBIE ∨ p.state = procstate.UNUSED) :
    (update_proc_stats_body now p).run_ticks = p.run_ticks ∧
    (update_proc_stats_body now p).sleep_ticks = p.sleep_ticks ∧
    (update_proc_stats_body now p).runnable_ticks = p.runnable_ticks := by
  unfold update_proc_stats_body
  dsimp only
  rcases h with h | h | h <;> simp only [h] <;> split_ifs <;> simp_all

theorem body_last_tick (now : Nat) (p : proc) (h : p.state ≠ procstate.UNUSED) :
    (update_proc_stats_body now p).last_tick = now := by
  unfold update_proc_stats_body
  dsimp only
  rw [if_pos h]
  split_ifs <;> rfl

/-- What the tenth-tick recomputation leaves in the two ratio fields, in terms
of the counters after the attribution. -/
theorem body_ratios_of_tenth (now : Nat) (p : proc) (hs : p.state ≠ procstate.UNUSED)
    (h : now % 10 = 0) :
    let q := update_proc_stats_body now p
    let total := add64 (add64 q.run_ticks q.sleep_ticks) q.runnable_ticks
    (0 < total → q.cpu_usage = mul64 q.run_ticks 10000 / total ∧
        q.io_intensity = mul64 q.sleep_ticks 10000 / total) ∧
    (total = 0 → q.cpu_usage = p.cpu_usage ∧ q.io_intensity = p.io_intensity) := by
  unfold update_proc_stats_body
  dsimp only
  rw [if_pos hs, if_pos h]
  split_ifs <;> simp_all <;> omega

/-- C3: on a tick that is not a multiple of ten, update_proc_stats leaves the
cpu_usage and the io_intensity of every record of the table unchanged. -/
theorem update_proc_stats_ratios_stable (k : Kernel) (h : k.ticks % 10 ≠ 0) :
    (update_proc_stats k).proc.map proc.cpu_usage = k.proc.map proc.cpu_usage ∧
    (update_proc_stats k).proc.map proc.io_intensity = k.proc.map proc.io_intensity := by
  simp only [update_proc_stats, List.map_map]
  constructor
  · apply List.map_congr_left
    intro p _
    exact (body_ratios_of_not_tenth k.ticks p h).1
  · apply List.map_congr_left
    intro p _
    exact (body_ratios_of_not_tenth k.ticks p h).2

/-- C3 at tick 13 with a running, a sleeping and an unused record. -/
theorem update_proc_stats_ratios_stable_witness :
    kernel_mid_window.ticks % 10 ≠ 0 ∧
    (update_proc_stats kernel_mid_window).proc.map proc.cpu_usage = [5000, 1000, 0] ∧
    (update_proc_stats kernel_mid_window).proc.map proc.io_intensity = [2500, 8000, 0] :=
  ⟨by decide, update_proc_stats_ratios_stable kernel_mid_window (by decide)⟩

/-- C4 fails as stated: at tick 10 a zombie record gets last_tick 10 instead
of 7 and its two ratios are recomputed from 0 to 5000. -/
theorem update_proc_stats_zombie_not_skipped :
    kernel_zombie.proc.map proc.state = [procstate.ZOMBIE, procstate.UNUSED] ∧
    kernel_zombie.proc.map proc.last_tick = [7, 0] ∧
    (update_proc_stats kernel_zombie).proc.map proc.last_tick = [10, 0] ∧
    kernel_zombie.proc.map proc.cpu_usage = [0, 0] ∧
    (update_proc_stats kernel_zombie).proc.map proc.cpu_usage = [5000, 0] ∧
    (update_proc_stats kernel_zombie).proc.map proc.io_intensity = [5000, 0] := by
  decide

/-- C4, amended: an unused record is left exactly as it is; for an embryo
(used) or zombie record the three counters and the state are unchanged,
last_tick becomes the current tick, and the two ratios are unchanged unless
the tick is a multiple of ten and the 64-bit sum of the counters is not zero,
in which case they are recomputed from the unchanged counters. -/
theorem update_proc_stats_not_accounted (k : Kernel) (i : Nat) (p : proc)
    (hp : k.proc[i]? = some p)
    (hs : p.state = procstate.USED ∨ p.state = procstate.ZOMBIE ∨ p.state = procstate.UNUSED) :
    ∃ q, (update_proc_stats k).proc[i]? = some q ∧
      q.state = p.state ∧ q.run_ticks = p.run_ticks ∧ q.sleep_ticks = p.sleep_ticks ∧
      q.runnable_ticks = p.runnable_ticks ∧
      (p.state = procstate.UNUSED → q = p) ∧
      (p.state ≠ procstate.UNUSED → q.last_tick = k.ticks) ∧
      (k.ticks % 10 ≠ 0 → q.cpu_usage = p.cpu_usage ∧ q.io_intensity = p.io_intensity) ∧
      (p.state ≠ procstate.UNUSED → k.ticks % 10 = 0 →
        (0 < add64 (add64 p.run_ticks p.sleep_ticks) p.runnable_ticks →
          q.cpu_usage =
            mul64 p.run_ticks 10000 / add64 (add64 p.run_ticks p.sleep_ticks) p.runnable_ticks ∧
          q.io_intensity =
            mul64 p.sleep_ticks 10000 / add64 (add64 p.run_ticks p.sleep_ticks) p.runnable_ticks) ∧
        (add64 (add64 p.run_ticks p.sleep_ticks) p.runnable_ticks = 0 →
          q.cpu_usage = p.cpu_usage ∧ q.io_intensity = p.io_intensity)) := by
  refine ⟨update_proc_stats_body k.ticks p, ?_, body_state _ _, ?_⟩
  · rw [update_proc_stats_getElem, hp]; rfl
  obtain ⟨h1, h2, h3⟩ := body_counters_of_not_accounted k.ticks p hs
  refine ⟨h1, h2, h3, fun hu => body_unused _ _ hu, fun hn => body_last_tick _ _ hn,
    fun ht => body_ratios_of_not_tenth _ _ ht, fun hn ht => ?_⟩
  have := body_ratios_of_tenth k.ticks p hn ht
  simp only [h1, h2, h3] at this
  exact this

/-- C4, amended, at tick 10 for the zombie record of kernel_zombie. -/
theorem update_proc_stats_not_accounted_witness :
    ∃ q, (update_proc_stats kernel_zombie).proc[0]? = some q ∧
      q.state = procstate.ZOMBIE ∧ q.run_ticks = 5 ∧ q.sleep_ticks = 5 ∧ q.runnable_ticks = 0 ∧
      q.last_tick = 10 := by
  obtain ⟨q, h0, h1, h2, h3, h4, _, h6, _⟩ :=
    update_proc_stats_not_accounted kernel_zombie 0 (mk_proc procstate.ZOMBIE 5 5 0 7 0 0) rfl
      (Or.inr (Or.inl rfl))
  exact ⟨q, h0, h1, h2, h3, h4, h6 (by decide)⟩

theorem counts_active_iff (p : proc) :
    counts_active p = true ↔ (p.state = procstate.RUNNING ∨ p.state = procstate.RUNNABLE) := by
  unfold counts_active
  cases h : p.state <;> simp

theorem active_procs_eq (k : Kernel) :
    active_procs k =
      (k.proc.filter (fun p => decide (p.state = procstate.RUNNING ∨
        p.state = procstate.RUNNABLE))).length := by
  unfold active_procs
  rw [List.countP_eq_length_filter]
  congr 1
  apply List.filter_congr
  intro p _
  by_cases h : p.state = procstate.RUNNING ∨ p.state = procstate.RUNNABLE
  · simp [h, (counts_active_iff p).2 h]
  · have : counts_active p = false := by
      rw [← Bool.not_eq_true, counts_active_iff]; exact h
    simp [h, this]

/-- C6 fails as stated: in fixed mode the deadline is programmed with the
default interval 1000000 while current_tick_interval keeps its old value
2000000. -/
theorem clockintr_fixed_mode_interval_not_recorded :
    kernel_fixed_mode.use_dynamic_ticks = 0 ∧
    clockintr_interval sample_params kernel_fixed_mode = 1000000 ∧
    (clockintr sample_params kernel_fixed_mode).stimecmp = 1000000 ∧
    (clockintr sample_params kernel_fixed_mode).cpu.current_tick_interval = 2000000 := by
  decide

/-- C6, amended: the deadline is always programmed as the 64-bit sum of the
hardware time and the chosen interval; in dynamic mode the core's
current_tick_interval equals that interval after the interrupt; in fixed
mode the interval is the default one and current_tick_interval is left as it
was. -/
theorem clockintr_records_dynamic_interval (P : Params) (k : Kernel) :
    (clockintr P k).stimecmp = add64 k.time (clockintr_interval P k) ∧
    (k.use_dynamic_ticks ≠ 0 →
      (clockintr P k).cpu.current_tick_interval = clockintr_interval P k) ∧
    (k.use_dynamic_ticks = 0 →
      clockintr_interval P k = P.DEFAULT_TICK_INTERVAL ∧
      (clockintr P k).cpu.current_tick_interval = k.cpu.current_tick_interval) := by
  have hu : (wakeup Chan.ticks (update_proc_stats
      { k with ticks := (k.ticks + 1) % 2 ^ 32 })).use_dynamic_ticks = k.use_dynamic_ticks := rfl
  refine ⟨?_, fun h => ?_, fun h => ?_⟩
  · unfold clockintr clockintr_interval clockintr_run
    dsimp only
    rw [hu]
    split_ifs <;> rfl
  · unfold clockintr clockintr_interval clockintr_run
    dsimp only
    rw [hu, if_pos h]
    rfl
  · unfold clockintr clockintr_interval clockintr_run
    dsimp only
    have h0 : ¬ (k.use_dynamic_ticks ≠ 0) := by simpa using h
    rw [hu, if_neg h0]
    exact ⟨rfl, rfl⟩

/-- Scenario A of the spec: in fixed mode clockintr programs the deadline with
DEFAULT_TICK_INTERVAL whatever the process table holds, and stays in fixed
mode, so consecutive interrupts in fixed mode use identical intervals. -/
theorem fixed_mode_uses_default_interval (P : Params) (k : Kernel)
    (h : k.use_dynamic_ticks = 0) :
    clockintr_interval P k = P.DEFAULT_TICK_INTERVAL ∧
    (clockintr P k).stimecmp = add64 k.time P.DEFAULT_TICK_INTERVAL ∧
    (clockintr P k).use_dynamic_ticks = 0 ∧
    clockintr_interval P (clockintr P k) = clockintr_interval P k := by
  have hu : ∀ k0 : Kernel, (wakeup Chan.ticks (update_proc_stats
      { k0 with ticks := (k0.ticks + 1) % 2 ^ 32 })).use_dynamic_ticks =
      k0.use_dynamic_ticks := fun _ => rfl
  have hint : ∀ k0 : Kernel, k0.use_dynamic_ticks = 0 →
      clockintr_interval P k0 = P.DEFAULT_TICK_INTERVAL := by
    intro k0 h0
    unfold clockintr_interval clockintr_run
    dsimp only
    rw [hu, if_neg (by simpa using h0)]
  have hmode : (clockintr P k).use_dynamic_ticks = 0 := by
    unfold clockintr clockintr_run
    dsimp only
    rw [hu, if_neg (by simpa using h)]
    exact h
  refine ⟨hint k h, ?_, hmode, by rw [hint _ hmode, hint k h]⟩
  unfold clockintr clockintr_run
  dsimp only
  rw [hu, if_neg (by simpa using h)]
  rfl

/-- Scenario A on kernel_fixed_mode: two consecutive interrupts both use
1000000. -/
theorem fixed_mode_uses_default_interval_witness :
    clockintr_interval sample_params kernel_fixed_mode = 1000000 ∧
    clockintr_interval sample_params (clockintr sample_params kernel_fixed_mode) =
      clockintr_interval sample_params kernel_fixed_mode :=
  ⟨(fixed_mode_uses_default_interval sample_params kernel_fixed_mode rfl).1,
    (fixed_mode_uses_default_interval sample_params kernel_fixed_mode rfl).2.2.2⟩

/-- C7: when at most one record is running or runnable,
calculate_tick_interval returns exactly MAX_TICK_INTERVAL (and records it),
whatever the ratios of the records, those of non-active states included. -/
theorem calculate_tick_interval_at_most_one_active (P : Params) (k : Kernel)
    (h : (k.proc.filter (fun p => decide (p.state = procstate.RUNNING ∨
      p.state = procstate.RUNNABLE))).length ≤ 1) :
    (calculate_tick_interval P k).1 = P.MAX_TICK_INTERVAL ∧
    (calculate_tick_interval P k).2.cpu.current_tick_interval = P.MAX_TICK_INTERVAL := by
  rw [← active_procs_eq] at h
  have ht : tick_interval P k = P.MAX_TICK_INTERVAL := by
    unfold tick_interval
    dsimp only
    have h1 : ¬ (active_procs k > 1) := by omega
    rw [if_neg (fun hc => h1 hc.2), if_neg (fun hc => h1 hc.2), if_pos h]
  exact ⟨ht, ht⟩

/-- C7 with one running record and three non-active records above both
thresholds. -/
theorem calculate_tick_interval_at_most_one_active_witness :
    (kernel_one_active.proc.filter (fun p => decide (p.state = procstate.RUNNING ∨
      p.state = procstate.RUNNABLE))).length = 1 ∧
    (calculate_tick_interval sample_params kernel_one_active).1 = 2000000 ∧
    (calculate_tick_interval sample_params kernel_one_active).2.cpu.current_tick_interval =
      2000000 :=
  ⟨by decide, calculate_tick_interval_at_most_one_active sample_params kernel_one_active
    (by decide)⟩

theorem toUint64_of_bounds (q : ℚ) (z : ℕ) (h1 : (z : ℚ) ≤ q) (h2 : q < (z : ℚ) + 1)
    (hz : z < 2 ^ 64) : toUint64 q = z := by
  have hf : ⌊q⌋ = (z : ℤ) := by
    rw [Int.floor_eq_iff]
    exact ⟨by exact_mod_cast h1, by exact_mod_cast h2⟩
  unfold toUint64
  rw [hf, Int.toNat_ofNat]
  exact min_eq_left (by omega)

theorem toUint64_natCast (n : ℕ) (h : n < 2 ^ 64) : toUint64 (n : ℚ) = n :=
  toUint64_of_bounds _ n le_rfl (by linarith) h

theorem tick_interval_cpu_branch (P : Params) (k : Kernel)
    (h : high_cpu_procs P k > active_procs k / 2 ∧ active_procs k > 1) :
    tick_interval P k = toUint64 ((P.MIN_TICK_INTERVAL : ℚ) +
      ((P.DEFAULT_TICK_INTERVAL : ℚ) - (P.MIN_TICK_INTERVAL : ℚ)) *
        (1 - (high_cpu_procs P k : ℚ) / (active_procs k : ℚ))) := by
  unfold tick_interval
  dsimp only
  rw [if_pos h]

theorem tick_interval_io_branch (P : Params) (k : Kernel)
    (hc : ¬ (high_cpu_procs P k > active_procs k / 2 ∧ active_procs k > 1))
    (h : high_io_procs P k > active_procs k / 2 ∧ active_procs k > 1) :
    tick_interval P k = toUint64 ((P.DEFAULT_TICK_INTERVAL : ℚ) +
      ((P.MAX_TICK_INTERVAL : ℚ) - (P.DEFAULT_TICK_INTERVAL : ℚ)) *
        ((high_io_procs P k : ℚ) / (active_procs k : ℚ))) := by
  unfold tick_interval
  dsimp only
  rw [if_neg hc, if_pos h]

/-- C1 at a failing input: with two runnable records and four sleeping
records of io_intensity 10000, and for all constants with an I/O threshold
below 10000 and DEFAULT < MAX, the I/O branch is taken with 4/2 as ratio and
the interval is 2*MAX - DEFAULT, above MAX_TICK_INTERVAL. -/
theorem tick_interval_above_max (P : Params) (hio : P.HIGH_IO_THRESHOLD < 10000)
    (hlt : P.DEFAULT_TICK_INTERVAL < P.MAX_TICK_INTERVAL)
    (hfit : 2 * P.MAX_TICK_INTERVAL - P.DEFAULT_TICK_INTERVAL < 2 ^ 64) :
    (calculate_tick_interval P kernel_io_heavy).1 =
      2 * P.MAX_TICK_INTERVAL - P.DEFAULT_TICK_INTERVAL ∧
    P.MAX_TICK_INTERVAL < (calculate_tick_interval P kernel_io_heavy).1 := by
  have ha : active_procs kernel_io_heavy = 2 := by decide
  have hcpu : high_cpu_procs P kernel_io_heavy = 0 := by
    simp [high_cpu_procs, kernel_io_heavy, mk_kernel, mk_proc, counts_high_cpu]
  have hhio : high_io_procs P kernel_io_heavy = 4 := by
    simp [high_io_procs, kernel_io_heavy, mk_kernel, mk_proc, counts_high_io, hio]
  have hval : (calculate_tick_interval P kernel_io_heavy).1 =
      2 * P.MAX_TICK_INTERVAL - P.DEFAULT_TICK_INTERVAL := by
    show tick_interval P kernel_io_heavy = _
    rw [tick_interval_io_branch P _ (by rw [hcpu, ha]; decide) (by rw [hhio, ha]; decide),
      hhio, ha]
    have hq : (P.DEFAULT_TICK_INTERVAL : ℚ) +
        ((P.MAX_TICK_INTERVAL : ℚ) - (P.DEFAULT_TICK_INTERVAL : ℚ)) * (((4 : ℕ) : ℚ) / ((2 : ℕ) : ℚ)) =
        ((2 * P.MAX_TICK_INTERVAL - P.DEFAULT_TICK_INTERVAL : ℕ) : ℚ) := by
      rw [Nat.cast_sub (by omega)]
      push_cast
      ring
    rw [hq]
    exact toUint64_natCast _ hfit
  rw [hval]
  exact ⟨rfl, by omega⟩

/-- C1 at the sample constants: the interval is 3000000, above the maximum
2000000. -/
theorem tick_interval_above_max_witness :
    (calculate_tick_interval sample_params kernel_io_heavy).1 = 3000000 ∧
    sample_params.MAX_TICK_INTERVAL < (calculate_tick_interval sample_params kernel_io_heavy).1 :=
  tick_interval_above_max sample_params (by decide) (by decide) (by decide)

theorem toUint64_lt (q : ℚ) (b : ℕ) (h : q < (b : ℚ)) (hb : 0 < b) : toUint64 q < b := by
  have hf : ⌊q⌋ < (b : ℤ) := Int.floor_lt.2 (by exact_mod_cast h)
  unfold toUint64
  have h1 : Int.toNat ⌊q⌋ < b := by omega
  exact lt_of_le_of_lt (min_le_left _ _) h1

/-- The lower bound fails in the same way as the upper one: with two runnable
and two sleeping records of cpu_usage 10000 the CPU branch is taken with 4/2
as ratio, the fractional value is 2*MIN - DEFAULT (negative when DEFAULT is
above 2*MIN) and the interval is below MIN_TICK_INTERVAL; it is exactly
2*MIN - DEFAULT when that is not negative. -/
theorem tick_interval_below_min (P : Params) (hcpu : P.HIGH_CPU_THRESHOLD < 10000)
    (hpos : 0 < P.MIN_TICK_INTERVAL)
    (hlt : P.MIN_TICK_INTERVAL < P.DEFAULT_TICK_INTERVAL)
    (hfit : P.DEFAULT_TICK_INTERVAL < 2 ^ 64) :
    (calculate_tick_interval P kernel_cpu_heavy).1 < P.MIN_TICK_INTERVAL ∧
    (P.DEFAULT_TICK_INTERVAL ≤ 2 * P.MIN_TICK_INTERVAL →
      (calculate_tick_interval P kernel_cpu_heavy).1 =
        2 * P.MIN_TICK_INTERVAL - P.DEFAULT_TICK_INTERVAL) := by
  have ha : active_procs kernel_cpu_heavy = 2 := by decide
  have hh : high_cpu_procs P kernel_cpu_heavy = 4 := by
    simp [high_cpu_procs, kernel_cpu_heavy, mk_kernel, mk_proc, counts_high_cpu, hcpu]
  have hval : (calculate_tick_interval P kernel_cpu_heavy).1 =
      toUint64 (2 * (P.MIN_TICK_INTERVAL : ℚ) - (P.DEFAULT_TICK_INTERVAL : ℚ)) := by
    show tick_interval P kernel_cpu_heavy = _
    rw [tick_interval_cpu_branch P _ (by rw [hh, ha]; decide), hh, ha]
    congr 1
    push_cast
    ring
  have hltq : (P.MIN_TICK_INTERVAL : ℚ) < (P.DEFAULT_TICK_INTERVAL : ℚ) := by exact_mod_cast hlt
  refine ⟨?_, fun hle => ?_⟩
  · rw [hval]
    exact toUint64_lt _ _ (by linarith) hpos
  · rw [hval]
    have hq : 2 * (P.MIN_TICK_INTERVAL : ℚ) - (P.DEFAULT_TICK_INTERVAL : ℚ) =
        ((2 * P.MIN_TICK_INTERVAL - P.DEFAULT_TICK_INTERVAL : ℕ) : ℚ) := by
      rw [Nat.cast_sub hle]
      push_cast
      ring
    rw [hq]
    exact toUint64_natCast _ (by omega)

theorem toUint64_between (q : ℚ) (a b : ℕ) (h1 : (a : ℚ) ≤ q) (h2 : q ≤ (b : ℚ))
    (hb : b < 2 ^ 64) : a ≤ toUint64 q ∧ toUint64 q ≤ b := by
  have hfa : (a : ℤ) ≤ ⌊q⌋ := Int.le_floor.2 (by exact_mod_cast h1)
  have hfb : ⌊q⌋ ≤ (b : ℤ) := by
    have : ((⌊q⌋ : ℤ) : ℚ) ≤ ((b : ℤ) : ℚ) := le_trans (Int.floor_le q) (by exact_mod_cast h2)
    exact_mod_cast this
  unfold toUint64
  have h3 : a ≤ Int.toNat ⌊q⌋ := by omega
  have h4 : Int.toNat ⌊q⌋ ≤ b := by omega
  constructor
  · exact le_min h3 (by omega)
  · exact le_trans (min_le_left _ _) h4

theorem active_procs_le_NPROC (k : Kernel) : active_procs k ≤ NPROC k :=
  List.countP_le_length _

/-- When no more records are above a threshold than there are active
records, the interval stays within the configured bounds. -/
theorem tick_interval_within_bounds (P : Params) (k : Kernel)
    (hmin : P.MIN_TICK_INTERVAL ≤ P.DEFAULT_TICK_INTERVAL)
    (hmax : P.DEFAULT_TICK_INTERVAL ≤ P.MAX_TICK_INTERVAL)
    (hfit : P.MAX_TICK_INTERVAL < 2 ^ 64)
    (hcpu : high_cpu_procs P k ≤ active_procs k)
    (hio : high_io_procs P k ≤ active_procs k) :
    P.MIN_TICK_INTERVAL ≤ (calculate_tick_interval P k).1 ∧
    (calculate_tick_interval P k).1 ≤ P.MAX_TICK_INTERVAL := by
  show P.MIN_TICK_INTERVAL ≤ tick_interval P k ∧ tick_interval P k ≤ P.MAX_TICK_INTERVAL
  have hminq : (P.MIN_TICK_INTERVAL : ℚ) ≤ (P.DEFAULT_TICK_INTERVAL : ℚ) := by exact_mod_cast hmin
  have hmaxq : (P.DEFAULT_TICK_INTERVAL : ℚ) ≤ (P.MAX_TICK_INTERVAL : ℚ) := by exact_mod_cast hmax
  by_cases hc : high_cpu_procs P k > active_procs k / 2 ∧ active_procs k > 1
  · rw [tick_interval_cpu_branch P k hc]
    have hpos : (0 : ℚ) < (active_procs k : ℚ) := by exact_mod_cast (by omega : 0 < active_procs k)
    have hr0 : (0 : ℚ) ≤ (high_cpu_procs P k : ℚ) / (active_procs k : ℚ) :=
      div_nonneg (Nat.cast_nonneg _) hpos.le
    have hr1 : (high_cpu_procs P k : ℚ) / (active_procs k : ℚ) ≤ 1 := by
      rw [div_le_one hpos]; exact_mod_cast hcpu
    apply toUint64_between _ _ _ _ _ hfit
    · nlinarith
    · nlinarith
  · by_cases hi : high_io_procs P k > active_procs k / 2 ∧ active_procs k > 1
    · rw [tick_interval_io_branch P k hc hi]
      have hpos : (0 : ℚ) < (active_procs k : ℚ) := by
        exact_mod_cast (by omega : 0 < active_procs k)
      have hr0 : (0 : ℚ) ≤ (high_io_procs P k : ℚ) / (active_procs k : ℚ) :=
        div_nonneg (Nat.cast_nonneg _) hpos.le
      have hr1 : (high_io_procs P k : ℚ) / (active_procs k : ℚ) ≤ 1 := by
        rw [div_le_one hpos]; exact_mod_cast hio
      apply toUint64_between _ _ _ _ _ hfit
      · nlinarith
      · nlinarith
    · unfold tick_interval
      dsimp only
      rw [if_neg hc, if_neg hi]
      by_cases h1 : active_procs k ≤ 1
      · rw [if_pos h1]; omega
      · rw [if_neg h1]
        have hle := active_procs_le_NPROC k
        have hpos : (0 : ℚ) < (NPROC k : ℚ) := by exact_mod_cast (by omega : 0 < NPROC k)
        have hr0 : (0 : ℚ) ≤ (active_procs k : ℚ) / (NPROC k : ℚ) :=
          div_nonneg (Nat.cast_nonneg _) hpos.le
        have hr1 : (active_procs k : ℚ) / (NPROC k : ℚ) ≤ 1 := by
          rw [div_le_one hpos]; exact_mod_cast hle
        obtain ⟨b1, b2⟩ := toUint64_between ((P.DEFAULT_TICK_INTERVAL : ℚ) -
          ((P.DEFAULT_TICK_INTERVAL : ℚ) - (P.MIN_TICK_INTERVAL : ℚ)) *
            ((active_procs k : ℚ) / (NPROC k : ℚ))) P.MIN_TICK_INTERVAL P.MAX_TICK_INTERVAL
          (by nlinarith) (by nlinarith) hfit
        split_ifs <;> omega

/-- The bounds at the sample constants for four active records of which
three are above the CPU threshold. -/
theorem tick_interval_within_bounds_witness :
    sample_params.MIN_TICK_INTERVAL ≤ (calculate_tick_interval sample_params kernel_four_active).1 ∧
    (calculate_tick_interval sample_params kernel_four_active).1 ≤
      sample_params.MAX_TICK_INTERVAL :=
  tick_interval_within_bounds sample_params kernel_four_active (by decide) (by decide)
    (by decide) (by decide) (by decide)

/-! ### Accounting over consecutive timer interrupts (C2) -/

theorem clockintr_proc (P : Params) (k : Kernel) :
    (clockintr P k).proc =
      (k.proc.map (update_proc_stats_body ((k.ticks + 1) % 2 ^ 32))).map (wakeup_body Chan.ticks) := by
  unfold clockintr clockintr_run
  dsimp only
  split_ifs <;> rfl

theorem clockintr_ticks (P : Params) (k : Kernel) :
    (clockintr P k).ticks = (k.ticks + 1) % 2 ^ 32 := by
  unfold clockintr clockintr_run
  dsimp only
  split_ifs <;> rfl

theorem clockintr_getElem (P : Params) (k : Kernel) (i : Nat) :
    (clockintr P k).proc[i]? =
      (k.proc[i]?).map (fun p =>
        wakeup_body Chan.ticks (update_proc_stats_body ((k.ticks + 1) % 2 ^ 32) p)) := by
  rw [clockintr_proc]
  simp [List.getElem?_map, Option.map_map, Function.comp_def]

theorem wakeup_body_accounting (c : Chan) (p : proc) :
    (wakeup_body c p).run_ticks = p.run_ticks ∧ (wakeup_body c p).sleep_ticks = p.sleep_ticks ∧
    (wakeup_body c p).runnable_ticks = p.runnable_ticks ∧ (wakeup_body c p).last_tick = p.last_tick := by
  unfold wakeup_body
  split_ifs <;> exact ⟨rfl, rfl, rfl, rfl⟩

/-- One tick of accounting for a record in a live state whose `last_tick` is
one tick behind. -/
theorem body_live_step (now : Nat) (p : proc)
    (hs : p.state = procstate.RUNNING ∨ p.state = procstate.SLEEPING ∨
      p.state = procstate.RUNNABLE)
    (hl : sub64 now p.last_tick = 1) :
    (update_proc_stats_body now p).run_ticks =
      (if p.state = procstate.RUNNING then add64 p.run_ticks 1 else p.run_ticks) ∧
    (update_proc_stats_body now p).sleep_ticks =
      (if p.state = procstate.SLEEPING then add64 p.sleep_ticks 1 else p.sleep_ticks) ∧
    (update_proc_stats_body now p).runnable_ticks =
      (if p.state = procstate.RUNNABLE then add64 p.runnable_ticks 1 else p.runnable_ticks) ∧
    (update_proc_stats_body now p).last_tick = now := by
  unfold update_proc_stats_body
  dsimp only
  rw [hl]
  rcases hs with h | h | h <;> simp only [h] <;> split_ifs <;> simp_all

/-- Accounting over a run of interrupts, counter by counter. -/
theorem timer_interrupts_counters (P : Params) (i : Nat) (fs : List (Kernel → Kernel)) :
    ∀ (k : Kernel) (p : proc), k.proc[i]? = some p →
      (∀ f ∈ fs, keeps_accounting i f) →
      (∀ s ∈ states_at_interrupts P i fs k, s = some procstate.RUNNING ∨
        s = some procstate.SLEEPING ∨ s = some procstate.RUNNABLE) →
      p.last_tick = k.ticks → k.ticks + fs.length < 2 ^ 32 →
      p.run_ticks < 2 ^ 64 → p.sleep_ticks < 2 ^ 64 → p.runnable_ticks < 2 ^ 64 →
      ∃ q, (timer_interrupts P fs k).proc[i]? = some q ∧
        q.run_ticks = (p.run_ticks +
          (states_at_interrupts P i fs k).count (some procstate.RUNNING)) % 2 ^ 64 ∧
        q.sleep_ticks = (p.sleep_ticks +
          (states_at_interrupts P i fs k).count (some procstate.SLEEPING)) % 2 ^ 64 ∧
        q.runnable_ticks = (p.runnable_ticks +
          (states_at_interrupts P i fs k).count (some procstate.RUNNABLE)) % 2 ^ 64 ∧
        (states_at_interrupts P i fs k).count (some procstate.RUNNING) +
          (states_at_interrupts P i fs k).count (some procstate.SLEEPING) +
          (states_at_interrupts P i fs k).count (some procstate.RUNNABLE) = fs.length := by
  induction fs with
  | nil =>
    intro k p hp _ _ _ _ hr hs hb
    refine ⟨p, hp, ?_, ?_, ?_, rfl⟩
    · simp only [states_at_interrupts, List.count_nil, Nat.add_zero]; omega
    · simp only [states_at_interrupts, List.count_nil, Nat.add_zero]; omega
    · simp only [states_at_interrupts, List.count_nil, Nat.add_zero]; omega
  | cons f fs ih =>
    intro k p hp hfs hlive hlast hwrap hr hs hb
    obtain ⟨hticks, hrec⟩ := hfs f (List.mem_cons_self _ _) k
    obtain ⟨p', hp', hr', hs', hb', hl'⟩ := hrec p hp
    simp only [List.length_cons] at hwrap
    have hst : (states_at_interrupts P i (f :: fs) k) =
        some p'.state :: states_at_interrupts P i fs (clockintr P (f k)) := by
      simp [states_at_interrupts, hp']
    rw [hst] at hlive ⊢
    have hlive0 : p'.state = procstate.RUNNING ∨ p'.state = procstate.SLEEPING ∨
        p'.state = procstate.RUNNABLE := by
      have := hlive (some p'.state) (List.mem_cons_self _ _)
      simpa using this
    have hnow : ((f k).ticks + 1) % 2 ^ 32 = k.ticks + 1 := by
      rw [hticks]; omega
    have helapsed : sub64 (k.ticks + 1) p'.last_tick = 1 := by
      unfold sub64; rw [hl', hlast]; omega
    obtain ⟨b1, b2, b3, b4⟩ := body_live_step (k.ticks + 1) p' hlive0 helapsed
    obtain ⟨w1, w2, w3, w4⟩ := wakeup_body_accounting Chan.ticks
      (update_proc_stats_body (k.ticks + 1) p')
    have hp1 : (clockintr P (f k)).proc[i]? =
        some (wakeup_body Chan.ticks (update_proc_stats_body (k.ticks + 1) p')) := by
      rw [clockintr_getElem, hp', hnow]; rfl
    have hk1 : (clockintr P (f k)).ticks = k.ticks + 1 := by
      rw [clockintr_ticks, hnow]
    have hadd : ∀ a : Nat, add64 a 1 < 2 ^ 64 := fun a => Nat.mod_lt _ (by decide)
    obtain ⟨q, hq, q1, q2, q3, q4⟩ := ih (clockintr P (f k))
      (wakeup_body Chan.ticks (update_proc_stats_body (k.ticks + 1) p')) hp1
      (fun g hg => hfs g (List.mem_cons_of_mem _ hg))
      (fun s hs => hlive s (List.mem_cons_of_mem _ hs))
      (by rw [w4, b4, hk1]) (by rw [hk1]; omega)
      (by rw [w1, b1]; split_ifs; exacts [hadd _, by omega])
      (by rw [w2, b2]; split_ifs; exacts [hadd _, by omega])
      (by rw [w3, b3]; split_ifs; exacts [hadd _, by omega])
    refine ⟨q, hq, ?_, ?_, ?_, ?_⟩
    · rw [q1, w1, b1, hr']
      rcases hlive0 with h | h | h <;> (simp [h, List.count_cons, add64]; try omega)
    · rw [q2, w2, b2, hs']
      rcases hlive0 with h | h | h <;> (simp [h, List.count_cons, add64]; try omega)
    · rw [q3, w3, b3, hb']
      rcases hlive0 with h | h | h <;> (simp [h, List.count_cons, add64]; try omega)
    · rcases hlive0 with h | h | h <;> simp [h, List.count_cons] <;> omega

theorem keeps_accounting_id (i : Nat) : keeps_accounting i id :=
  fun _ => ⟨rfl, fun p hp => ⟨p, hp, rfl, rfl, rfl, rfl⟩⟩

theorem keeps_accounting_set_state (i j : Nat) (s : procstate) :
    keeps_accounting i (set_state j s) := by
  intro k
  refine ⟨rfl, fun p hp => ?_⟩
  by_cases hji : j = i
  · refine ⟨{ p with state := s }, ?_, rfl, rfl, rfl, rfl⟩
    simp [set_state, List.getElem?_modify, hji, hp]
  · refine ⟨p, ?_, rfl, rfl, rfl, rfl⟩
    simp [set_state, List.getElem?_modify, hji, hp]

/-- C2 fails as stated when the 32-bit tick counter wraps: at ticks =
4294967295 a running record with last_tick = 4294967295 gets
2^64 - 2^32 + 1 added to run_ticks by one timer interrupt, not 1. -/
theorem timer_interrupt_at_tick_wrap :
    kernel_tick_wrap.ticks = 4294967295 ∧
    kernel_tick_wrap.proc.map proc.state = [procstate.RUNNING] ∧
    kernel_tick_wrap.proc.map proc.last_tick = [4294967295] ∧
    kernel_tick_wrap.proc.map proc.run_ticks = [0] ∧
    (timer_interrupts sample_params [id] kernel_tick_wrap).ticks = 0 ∧
    (timer_interrupts sample_params [id] kernel_tick_wrap).proc.map proc.run_ticks =
      [18446744069414584321] ∧
    (timer_interrupts sample_params [id] kernel_tick_wrap).proc.map proc.sleep_ticks = [0] ∧
    (timer_interrupts sample_params [id] kernel_tick_wrap).proc.map proc.runnable_ticks = [0] := by
  decide

/-- C2, amended: take a record whose last_tick equals the tick counter and
whose counters are 64-bit values, and N timer interrupts during which the
32-bit tick counter does not wrap, the rest of the kernel leaves the
record's counters and last_tick alone, and the record is running, sleeping or
runnable at each interrupt.  Then each counter grows, modulo 2^64, by the
number of interrupts at which the record was in the matching state, those
three numbers add up to N, the 64-bit sum of the counters grows by N, and if
the sum plus N stays below 2^64 the growth is exact. -/
theorem timer_interrupts_conserve (P : Params) (i : Nat) (fs : List (Kernel → Kernel))
    (k : Kernel) (p : proc) (hp : k.proc[i]? = some p)
    (hfs : ∀ f ∈ fs, keeps_accounting i f)
    (hlive : ∀ s ∈ states_at_interrupts P i fs k, s = some procstate.RUNNING ∨
      s = some procstate.SLEEPING ∨ s = some procstate.RUNNABLE)
    (hlast : p.last_tick = k.ticks) (hwrap : k.ticks + fs.length < 2 ^ 32)
    (hr : p.run_ticks < 2 ^ 64) (hs : p.sleep_ticks < 2 ^ 64)
    (hb : p.runnable_ticks < 2 ^ 64) :
    ∃ q, (timer_interrupts P fs k).proc[i]? = some q ∧
      q.run_ticks = (p.run_ticks +
        (states_at_interrupts P i fs k).count (some procstate.RUNNING)) % 2 ^ 64 ∧
      q.sleep_ticks = (p.sleep_ticks +
        (states_at_interrupts P i fs k).count (some procstate.SLEEPING)) % 2 ^ 64 ∧
      q.runnable_ticks = (p.runnable_ticks +
        (states_at_interrupts P i fs k).count (some procstate.RUNNABLE)) % 2 ^ 64 ∧
      (states_at_interrupts P i fs k).count (some procstate.RUNNING) +
        (states_at_interrupts P i fs k).count (some procstate.SLEEPING) +
        (states_at_interrupts P i fs k).count (some procstate.RUNNABLE) = fs.length ∧
      (q.run_ticks + q.sleep_ticks + q.runnable_ticks) % 2 ^ 64 =
        (p.run_ticks + p.sleep_ticks + p.runnable_ticks + fs.length) % 2 ^ 64 ∧
      (p.run_ticks + p.sleep_ticks + p.runnable_ticks + fs.length < 2 ^ 64 →
        q.run_ticks + q.sleep_ticks + q.runnable_ticks =
          p.run_ticks + p.sleep_ticks + p.runnable_ticks + fs.length) := by
  obtain ⟨q, hq, q1, q2, q3, q4⟩ :=
    timer_interrupts_counters P i fs k p hp hfs hlive hlast hwrap hr hs hb
  refine ⟨q, hq, q1, q2, q3, q4, ?_, fun hsum => ?_⟩
  · rw [q1, q2, q3]; omega
  · rw [q1, q2, q3]; omega

/-- C2, amended, on three interrupts from tick 12: the record runs at the
first and sleeps at the other two, so 4, 2, 1 become 5, 4, 1. -/
theorem timer_interrupts_conserve_witness :
    ∃ q, (timer_interrupts sample_params window_steps kernel_window_start).proc[0]? = some q ∧
      q.run_ticks = 5 ∧ q.sleep_ticks = 4 ∧ q.runnable_ticks = 1 := by
  obtain ⟨q, h0, h1, h2, h3, _⟩ :=
    timer_interrupts_conserve sample_params 0 window_steps kernel_window_start
      (mk_proc procstate.RUNNING 4 2 1 12 5000 2500) rfl
      (by
        intro f hf
        simp only [window_steps, List.mem_cons, List.mem_singleton, List.not_mem_nil,
          or_false] at hf
        rcases hf with h | h | h
        · rw [h]; exact keeps_accounting_id 0
        · rw [h]; exact keeps_accounting_set_state 0 0 _
        · rw [h]; exact keeps_accounting_id 0)
      (by decide) rfl (by decide) (by decide) (by decide) (by decide)
  refine ⟨q, h0, ?_, ?_, ?_⟩
  · rw [h1]; decide
  · rw [h2]; decide
  · rw [h3]; decide

/-! ### Unrecognized trap causes (C9) -/

theorem usertrap_finish_ne_panic (P : Params) (X : Outside) (w : Int) (m : Machine)
    (msg : String) : usertrap_finish P X w m ≠ Outcome.panic msg := by
  unfold usertrap_finish
  split_ifs <;> simp

theorem usertrap_ne_panic (P : Params) (X : Outside) (m : Machine)
    (h : m.sstatus &&& P.SSTATUS_SPP = 0) (msg : String) :
    usertrap P X m ≠ Outcome.panic msg := by
  unfold usertrap
  dsimp only
  rw [if_neg (by simpa using h)]
  split_ifs
  · simp
  · exact usertrap_finish_ne_panic _ _ _ _ _
  · exact usertrap_finish_ne_panic _ _ _ _ _
  · exact usertrap_finish_ne_panic _ _ _ _ _

theorem devintr_unrecognized (P : Params) (m : Machine)
    (hext : m.scause ≠ 0x8000000000000009) (htimer : m.scause ≠ 0x8000000000000005) :
    devintr P m = (0, m) := by
  unfold devintr
  dsimp only
  rw [if_neg hext, if_neg htimer]

/-- C9: for a trap cause that is neither 8 nor the supervisor external
interrupt nor the supervisor timer interrupt, devintr returns 0 and changes
nothing; usertrap entered from user mode then ends in exit(-1) of the current
process with only that process flagged as killed (the other records, the tick
counter and the record of outside calls apart from two printf lines are as
before) and does not panic; kerneltrap panics.  And whatever the cause,
usertrap entered from user mode does not panic. -/
theorem unrecognized_trap_cause (P : Params) (X : Outside) (m : Machine)
    (i : Nat) (p : proc)
    (h8 : m.scause ≠ 8) (hext : m.scause ≠ 0x8000000000000009)
    (htimer : m.scause ≠ 0x8000000000000005)
    (hcur : m.myproc = some i) (hp : m.kernel.proc[i]? = some p) :
    (devintr P m).1 = 0 ∧ (devintr P m).2 = m ∧
    (m.sstatus &&& P.SSTATUS_SPP = 0 →
      ∃ m', usertrap P X m = Outcome.exit (-1) m' ∧
        m'.kernel.proc[i]? = some { p with epc := m.sepc, killed := true } ∧
        (∀ j, j ≠ i → m'.kernel.proc[j]? = m.kernel.proc[j]?) ∧
        m'.kernel.ticks = m.kernel.ticks ∧
        m'.log = m.log ++ [Event.printf "usertrap(): unexpected scause",
          Event.printf "sepc stval"]) ∧
    (∃ msg, kerneltrap P X m = Outcome.panic msg) ∧
    (∀ (m₀ : Machine) (msg : String), m₀.sstatus &&& P.SSTATUS_SPP = 0 →
      usertrap P X m₀ ≠ Outcome.panic msg) := by
  have hd := devintr_unrecognized P m hext htimer
  refine ⟨by rw [hd], by rw [hd], fun hspp => ?_, ?_, fun m₀ msg h₀ => usertrap_ne_panic P X m₀ h₀ msg⟩
  · refine ⟨setkilled ((((({ m with stvec := TrapVector.kernelvec } : Machine).with_myproc
      (fun p => { p with epc := m.sepc })).emit
        (Event.printf "usertrap(): unexpected scause")).emit (Event.printf "sepc stval"))),
      ?_, ?_, ?_, ?_, ?_⟩
    · unfold usertrap
      dsimp only
      rw [if_neg (by simpa using hspp)]
      have hs2 : (({ m with stvec := TrapVector.kernelvec } : Machine).with_myproc
          (fun p => { p with epc := m.sepc })).scause = m.scause := by
        simp [Machine.with_myproc, hcur]
      rw [if_neg (by rw [hs2]; exact h8),
        devintr_unrecognized P _ (by rw [hs2]; exact hext) (by rw [hs2]; exact htimer)]
      dsimp only
      rw [if_neg (by simp)]
      unfold usertrap_finish
      rw [if_pos]
      simp [killed, setkilled, Machine.curproc, Machine.with_myproc, Machine.emit, hcur, hp,
        List.getElem?_modify]
    · simp [setkilled, Machine.with_myproc, Machine.emit, hcur, hp, List.getElem?_modify]
    · intro j hj
      have hij : ¬ i = j := fun h => hj h.symm
      simp [setkilled, Machine.with_myproc, Machine.emit, hcur, List.getElem?_modify, hij]
    · simp [setkilled, Machine.with_myproc, Machine.emit, hcur]
    · simp [setkilled, Machine.with_myproc, Machine.emit, hcur]
  · unfold kerneltrap
    dsimp only
    split_ifs with h1 h2 h3
    · exact ⟨_, rfl⟩
    · exact ⟨_, rfl⟩
    · exact ⟨_, rfl⟩
    · exact absurd (by rw [hd]) h3

/-- C9 for cause 13 raised by the process at index 1: in user mode the
process is flagged and exits, the records at the other indices are as before;
in supervisor mode the kernel panics. -/
theorem unrecognized_trap_cause_witness :
    (devintr sample_params machine_user_fault).1 = 0 ∧
    (∃ m', usertrap sample_params outside_idle machine_user_fault = Outcome.exit (-1) m' ∧
      m'.kernel.proc[1]? = some { mk_proc procstate.RUNNING 4 2 1 12 5000 2500 with
        epc := 4096, killed := true } ∧
      (∀ j, j ≠ 1 → m'.kernel.proc[j]? = machine_user_fault.kernel.proc[j]?)) ∧
    (∃ msg, kerneltrap sample_params outside_idle machine_kernel_fault = Outcome.panic msg) := by
  have hu := unrecognized_trap_cause sample_params outside_idle machine_user_fault 1
    (mk_proc procstate.RUNNING 4 2 1 12 5000 2500) (by decide) (by decide) (by decide) rfl rfl
  have hk := unrecognized_trap_cause sample_params outside_idle machine_kernel_fault 1
    (mk_proc procstate.RUNNING 4 2 1 12 5000 2500) (by decide) (by decide) (by decide) rfl rfl
  obtain ⟨m', h1, h2, h3, _⟩ := hu.2.2.1 (by decide)
  exact ⟨hu.1, ⟨m', h1, h2, h3⟩, hk.2.2.2.1⟩

/-! ### Lock order on the timer path (C10) -/

theorem one_plock_at_a_time_loop (rest : List LockOp) (is : List Nat) :
    one_plock_at_a_time 0 (is.flatMap (fun i =>
      [LockOp.acquire (Lock.plock i), LockOp.release (Lock.plock i)]) ++ rest) =
    one_plock_at_a_time 0 rest := by
  induction is with
  | nil => rfl
  | cons i is ih =>
    simp only [List.flatMap_cons, List.cons_append, List.nil_append, one_plock_at_a_time,
      beq_self_eq_true, Bool.true_and, Nat.sub_self]
    exact ih

/-- The lock operations of clockintr and update_proc_stats never acquire a
process lock while another process lock is held. -/
theorem clockintr_locks_one_plock (nproc : Nat) :
    one_plock_at_a_time 0 (clockintr_locks nproc []) = true := by
  have h : clockintr_locks nproc [] =
      LockOp.acquire Lock.tickslock :: LockOp.acquire Lock.tickslock ::
      LockOp.release Lock.tickslock :: ((List.range nproc).flatMap (fun i =>
        [LockOp.acquire (Lock.plock i), LockOp.release (Lock.plock i)]) ++
        [LockOp.release Lock.tickslock]) := by
    simp [clockintr_locks, update_proc_stats_locks]
  rw [h]
  simp only [one_plock_at_a_time]
  rw [one_plock_at_a_time_loop]
  rfl

end Xv6
